import Mathlib

/-!
Verification development for the `LoginPage` page object of
`src/pages/loginPage.ts` (eLead-Automation-MCP).

The TypeScript file is a page-object wrapper over a browser-automation
library.  We embed it shallowly: every call into the library that the file
performs (navigation, visibility query, click, fill, bounded visibility /
hidden wait) becomes an `Action`; the browser / DOM is an oracle
`Env : Nat → Except String Bool` that decides, for the n-th primitive
performed in a run, whether it completes normally (the `Bool` is the result
of an `isVisible` query and is ignored by the other primitives) or throws an
error with the given message.  Each method of the class is translated,
statement for statement, into explicit state passing over an `ExecState`
that records the page object, the number of primitives performed, the trace
of attempted primitives, and the log entries emitted.
-/

namespace ELeadLogin

/-- Accessible roles used by the `getByRole` locators in `loginPage.ts`. -/
inductive Role
  | tab
  | textbox
  | button
  deriving DecidableEq

/-- Options of a `getByRole` call: the accessible name, and whether matching
is exact.  In the library the `exact` option defaults to `false`. -/
structure RoleOptions where
  name : String
  exact : Bool := false
  deriving DecidableEq

/-- A deferred element query descriptor, as built in the constructor:
either a role with name options, or a text match (`getByText`). -/
inductive Locator
  | getByRole (role : Role) (opts : RoleOptions)
  | getByText (text : String)
  deriving DecidableEq

/-- The `waitUntil` navigation option of `page.goto`. -/
inductive WaitUntil
  | load
  | domcontentloaded
  deriving DecidableEq

/-- The primitive library calls performed by `loginPage.ts`.  A wait option
of `none` means the call was made without an explicit timeout, so the
library default applies. -/
inductive Action
  | goto (path : String) (waitUntil : Option WaitUntil)
  | isVisible (l : Locator)
  | click (l : Locator)
  | fill (l : Locator) (value : String)
  | expectVisible (l : Locator) (timeout : Option Nat)
  | expectHidden (l : Locator) (timeout : Option Nat)
  deriving DecidableEq

/-- One log record.  Modelled from the spec: the logger module
(`../src/utils/logger`) is not under src/; the spec describes it as "a
warning-level logging call accepting a message and a structured
error-detail payload". -/
structure LogEntry where
  level : String
  message : String
  errorDetail : String
  deriving DecidableEq

/-- The opaque session handle injected at construction; only its identity
matters to this component. -/
structure Page where
  sessionId : Nat
  deriving DecidableEq

/-- Named timeout durations.  Modelled from the spec: the module
`../src/constants/timeouts` is not under src/; the spec requires only named
duration constants, "at minimum a MEDIUM value used uniformly for bounded
waits".  No proof depends on the numeric value. -/
structure TimeoutsConfig where
  MEDIUM : Nat
  deriving DecidableEq

def TIMEOUTS : TimeoutsConfig := { MEDIUM := 5000 }

/-- The error-message catalog.  Modelled from the spec: the catalog lives in
the same constants module, not under src/; the spec requires "at minimum an
INVALID_LOGIN text value matching the application's actual rendered error
string".  No proof depends on the concrete text. -/
structure ErrorMessagesCatalog where
  INVALID_LOGIN : String
  deriving DecidableEq

def ERROR_MESSAGES : ErrorMessagesCatalog := { INVALID_LOGIN := "Invalid email or password" }

/-- The fields of the `LoginPage` class: the session handle and the six
locator bindings, all declared `readonly` in the source. -/
structure LoginPage where
  page : Page
  loginTab : Locator
  emailInput : Locator
  passwordInput : Locator
  loginButton : Locator
  errorMessage : Locator
  startShoppingButton : Locator
  deriving DecidableEq

/-- The class constructor, line for line:
`this.loginTab = page.getByRole("tab", { name: "Log in" })` and so on.
It is a pure total function: it stores the handle and builds the locator
descriptors, performing no primitive call. -/
def LoginPage.constructor (page : Page) : LoginPage :=
  { page := page
    loginTab := Locator.getByRole Role.tab { name := "Log in" }
    emailInput := Locator.getByRole Role.textbox { name := "Email" }
    passwordInput := Locator.getByRole Role.textbox { name := "Password" }
    loginButton := Locator.getByRole Role.button { name := "Log in" }
    errorMessage := Locator.getByText ERROR_MESSAGES.INVALID_LOGIN
    startShoppingButton := Locator.getByRole Role.button { name := "Start Shopping", exact := true } }

/-- The locator fields of a `LoginPage`, in declaration order. -/
def LoginPage.locators (lp : LoginPage) : List Locator :=
  [lp.loginTab, lp.emailInput, lp.passwordInput, lp.loginButton, lp.errorMessage, lp.startShoppingButton]

/-- Execution state of a run: the page object (so that a hypothetical field
assignment would be observable), the count of primitives performed so far,
the trace of primitives attempted, and the emitted log entries. -/
structure ExecState where
  pageObject : LoginPage
  step : Nat
  trace : List Action
  logs : List LogEntry
  deriving DecidableEq

/-- The browser / DOM oracle: outcome of the n-th primitive of a run. -/
abbrev Env := Nat → Except String Bool

/-- Result of a method: either normal return or a propagated thrown error,
together with the final execution state. -/
abbrev MRes := Except String Unit × ExecState

/-- Record that one primitive was attempted. -/
def bump (s : ExecState) (a : Action) : ExecState :=
  { s with step := s.step + 1, trace := s.trace ++ [a] }

/-- Perform one primitive, returning its raw (Bool-carrying) outcome. -/
def runPrim (env : Env) (a : Action) (s : ExecState) : Except String Bool × ExecState :=
  (env s.step, bump s a)

/-- Perform one primitive whose result value is not used. -/
def primU (env : Env) (a : Action) (s : ExecState) : MRes :=
  (Except.map (fun _ => ()) (env s.step), bump s a)

/-- Sequencing of awaited statements: a thrown error aborts the rest. -/
def andThen (r : MRes) (k : ExecState → MRes) : MRes :=
  match r with
  | (Except.ok _, s) => k s
  | (Except.error e, s) => (Except.error e, s)

/-- Run a straight-line block of primitives in order. -/
def runSeq (env : Env) (acts : List Action) (s : ExecState) : MRes :=
  match acts with
  | [] => (Except.ok (), s)
  | a :: rest => andThen (primU env a s) fun s1 => runSeq env rest s1

/-- The log entry emitted by the catch block of `maybeCloseWelcomePopup`:
`logger.warn("Welcome popup handling failed", { error: ... })`. -/
def warnEntry (e : String) : LogEntry :=
  { level := "warn", message := "Welcome popup handling failed", errorDetail := e }

/-- Append the warning entry for a caught error `e` to the log. -/
def pushLog (s : ExecState) (e : String) : ExecState :=
  { s with logs := s.logs ++ [warnEntry e] }

/-- The try / catch wrapper of `maybeCloseWelcomePopup`: a thrown error is
converted into a warning log entry and a normal return. -/
def catchWarn (r : MRes) : MRes :=
  match r with
  | (Except.ok u, s) => (Except.ok u, s)
  | (Except.error e, s) => (Except.ok (), pushLog s e)

/-- `async goto()`: `await this.page.goto("/login")` — navigation with no
explicit `waitUntil` option, so the library default applies. -/
def LoginPage.goto (env : Env) (s : ExecState) : MRes :=
  primU env (Action.goto "/login" none) s

/-- `async maybeCloseWelcomePopup()`, statement for statement:
a try block that queries `isVisible` (an immediate check), and when the
result is true clicks the button and awaits a bounded hidden-wait
(`timeout: TIMEOUTS.MEDIUM`); the catch block logs a warning and returns
normally. -/
def LoginPage.maybeCloseWelcomePopup (env : Env) (s : ExecState) : MRes :=
  catchWarn
    (match runPrim env (Action.isVisible s.pageObject.startShoppingButton) s with
     | (Except.error e, s1) => (Except.error e, s1)
     | (Except.ok b, s1) =>
        if b then
          andThen (primU env (Action.click s1.pageObject.startShoppingButton) s1) fun s2 =>
            primU env (Action.expectHidden s2.pageObject.startShoppingButton (some TIMEOUTS.MEDIUM)) s2
        else (Except.ok (), s1))

/-- `async login(email, password)`, statement for statement: navigation with
`waitUntil: "domcontentloaded"`, the popup attempt, then the straight-line
block of waits, fills and clicks, ending at the login-button click. -/
def LoginPage.login (email password : String) (env : Env) (s : ExecState) : MRes :=
  andThen (primU env (Action.goto "/login" (some WaitUntil.domcontentloaded)) s) fun s1 =>
  andThen (LoginPage.maybeCloseWelcomePopup env s1) fun s2 =>
  runSeq env
    [Action.expectVisible s2.pageObject.loginTab (some TIMEOUTS.MEDIUM),
     Action.click s2.pageObject.loginTab,
     Action.expectVisible s2.pageObject.emailInput (some TIMEOUTS.MEDIUM),
     Action.expectVisible s2.pageObject.passwordInput none,
     Action.fill s2.pageObject.emailInput email,
     Action.fill s2.pageObject.passwordInput password,
     Action.click s2.pageObject.loginButton] s2

/-- `async expectErrorVisible()`: one bounded visibility wait on the
error-message locator. -/
def LoginPage.expectErrorVisible (env : Env) (s : ExecState) : MRes :=
  primU env (Action.expectVisible s.pageObject.errorMessage (some TIMEOUTS.MEDIUM)) s

/-- `async expectStillOnLoginPage()`: bounded wait on the login tab, then
default-timeout waits on the two credential fields, in that order. -/
def LoginPage.expectStillOnLoginPage (env : Env) (s : ExecState) : MRes :=
  runSeq env
    [Action.expectVisible s.pageObject.loginTab (some TIMEOUTS.MEDIUM),
     Action.expectVisible s.pageObject.emailInput none,
     Action.expectVisible s.pageObject.passwordInput none] s

/-- A fresh run: a newly constructed page object, no primitives performed. -/
def initState (page : Page) : ExecState :=
  { pageObject := LoginPage.constructor page, step := 0, trace := [], logs := [] }

/-- An environment in which no primitive throws; `vis n` is the answer the
n-th primitive would give to a visibility query. -/
def okEnv (vis : Nat → Bool) : Env := fun n => Except.ok (vis n)

/-- An environment in which exactly the k-th primitive throws error `e` and
every other primitive completes normally. -/
def failAt (k : Nat) (e : String) (vis : Nat → Bool) : Env :=
  fun n => if n = k then Except.error e else Except.ok (vis n)

/-- Actions that wait on a condition (navigation completion or bounded /
default visibility waits).  `isVisible` is not one of them: it is an
immediate query. -/
def isWaitAction : Action → Bool
  | Action.goto _ _ => true
  | Action.expectVisible _ _ => true
  | Action.expectHidden _ _ => true
  | _ => false

/-- Navigation actions. -/
def isGotoAction : Action → Bool
  | Action.goto _ _ => true
  | _ => false

/-- Whether a locator was built with exact accessible-name matching. -/
def locatorIsExact : Locator → Bool
  | Locator.getByRole _ ⟨_, e⟩ => e
  | Locator.getByText _ => false

/-- Every bounded (explicit-timeout) wait in an action uses the configured
MEDIUM duration. -/
def boundedWaitUsesConfig : Action → Bool
  | Action.expectVisible _ (some t) => t == TIMEOUTS.MEDIUM
  | Action.expectHidden _ (some t) => t == TIMEOUTS.MEDIUM
  | _ => true

/-- ASCII lower-casing of a character code. -/
def lowerCode (n : Nat) : Nat := if 65 ≤ n ∧ n ≤ 90 then n + 32 else n

/-- Case-insensitive character comparison (ASCII). -/
def eqIgnoreCase (a b : Char) : Bool := lowerCode a.toNat == lowerCode b.toNat

/-- Case-insensitive character-list prefix test. -/
def isPrefixOfCI : List Char → List Char → Bool
  | [], _ => true
  | _ :: _, [] => false
  | a :: as, b :: bs => eqIgnoreCase a b && isPrefixOfCI as bs

/-- Case-insensitive character-list substring test. -/
def containsCI (need : List Char) : List Char → Bool
  | [] => need.isEmpty
  | b :: t => isPrefixOfCI need (b :: t) || containsCI need t

/-- Accessible-name matching of `getByRole`, modelled from the library
documentation: with `exact` the accessible name must equal the pattern
(case-sensitively); without it a case-insensitive substring match is
performed (whitespace normalisation is not modelled). -/
def nameMatches : RoleOptions → String → Bool
  | ⟨pat, true⟩, accName => accName == pat
  | ⟨pat, false⟩, accName => containsCI pat.toList accName.toList

/-- A rendered element, for deciding which elements a locator resolves to. -/
structure DomElem where
  role : Role
  accName : String
  textContent : String
  deriving DecidableEq

/-- Whether a locator matches an element. -/
def matchesElem : Locator → DomElem → Bool
  | Locator.getByRole r o, el => decide (el.role = r) && nameMatches o el.accName
  | Locator.getByText t, el => containsCI t.toList el.textContent.toList

/-- Whether some element of the DOM matches the locator (i.e. the locator
resolves to a visible element in this simple model). -/
def visibleInDom (dom : List DomElem) (l : Locator) : Bool :=
  dom.any (fun el => matchesElem l el)

/-- A DOM holding one dismiss button whose accessible name merely contains
"Start Shopping". -/
def domWithContainingName : List DomElem :=
  [{ role := Role.button, accName := "Start Shopping Now", textContent := "Start Shopping Now" }]

/-- The full action sequence `login` performs when nothing throws, with the
popup branch decided by `popupShown`. -/
def loginExpectedTrace (lp : LoginPage) (email password : String) (popupShown : Bool) : List Action :=
  Action.goto "/login" (some WaitUntil.domcontentloaded) ::
  ((if popupShown then
      [Action.isVisible lp.startShoppingButton,
       Action.click lp.startShoppingButton,
       Action.expectHidden lp.startShoppingButton (some TIMEOUTS.MEDIUM)]
    else [Action.isVisible lp.startShoppingButton]) ++
   [Action.expectVisible lp.loginTab (some TIMEOUTS.MEDIUM),
    Action.click lp.loginTab,
    Action.expectVisible lp.emailInput (some TIMEOUTS.MEDIUM),
    Action.expectVisible lp.passwordInput none,
    Action.fill lp.emailInput email,
    Action.fill lp.passwordInput password,
    Action.click lp.loginButton])

/-- The navigation wait condition a `goto` call effectively uses: the
explicit option when given, otherwise the library default, which is the
full `load` event (modelled from the library documentation). -/
def defaultWaitUntil : WaitUntil := WaitUntil.load

def effectiveWaitUntil : Option WaitUntil → WaitUntil
  | some w => w
  | none => defaultWaitUntil

/-- When each load milestone of a page fires, for comparing navigation
completion conditions. -/
structure LoadTimeline where
  domcontentloadedAt : Nat
  loadAt : Nat
  deriving DecidableEq

/-- The instant a navigation completes under a given wait condition. -/
def navCompletionTime (t : LoadTimeline) : WaitUntil → Nat
  | WaitUntil.domcontentloaded => t.domcontentloadedAt
  | WaitUntil.load => t.loadAt

/-! ## Helper lemmas -/

@[simp] theorem bump_pageObject (s : ExecState) (a : Action) :
    (bump s a).pageObject = s.pageObject := rfl

@[simp] theorem bump_step (s : ExecState) (a : Action) :
    (bump s a).step = s.step + 1 := rfl

@[simp] theorem bump_trace (s : ExecState) (a : Action) :
    (bump s a).trace = s.trace ++ [a] := rfl

@[simp] theorem bump_logs (s : ExecState) (a : Action) :
    (bump s a).logs = s.logs := rfl

@[simp] theorem pushLog_pageObject (s : ExecState) (e : String) :
    (pushLog s e).pageObject = s.pageObject := rfl

@[simp] theorem pushLog_step (s : ExecState) (e : String) :
    (pushLog s e).step = s.step := rfl

@[simp] theorem pushLog_trace (s : ExecState) (e : String) :
    (pushLog s e).trace = s.trace := rfl

/-- Full case analysis of `maybeCloseWelcomePopup`: the five possible
outcomes, by where (if anywhere) the environment throws.  Here
`popupActions s` lists the check, the click and the bounded hidden-wait. -/
theorem maybeClose_eq (env : Env) (s : ExecState) :
    LoginPage.maybeCloseWelcomePopup env s =
      match env s.step with
      | Except.error e =>
          (Except.ok (), pushLog (bump s (Action.isVisible s.pageObject.startShoppingButton)) e)
      | Except.ok false =>
          (Except.ok (), bump s (Action.isVisible s.pageObject.startShoppingButton))
      | Except.ok true =>
          match env (s.step + 1) with
          | Except.error e =>
              (Except.ok (),
                pushLog (bump (bump s (Action.isVisible s.pageObject.startShoppingButton))
                  (Action.click s.pageObject.startShoppingButton)) e)
          | Except.ok _ =>
              match env (s.step + 2) with
              | Except.error e =>
                  (Except.ok (),
                    pushLog (bump (bump (bump s
                      (Action.isVisible s.pageObject.startShoppingButton))
                      (Action.click s.pageObject.startShoppingButton))
                      (Action.expectHidden s.pageObject.startShoppingButton
                        (some TIMEOUTS.MEDIUM))) e)
              | Except.ok _ =>
                  (Except.ok (),
                    bump (bump (bump s (Action.isVisible s.pageObject.startShoppingButton))
                      (Action.click s.pageObject.startShoppingButton))
                      (Action.expectHidden s.pageObject.startShoppingButton
                        (some TIMEOUTS.MEDIUM))) := by
  cases h1 : env s.step with
  | error e => simp [LoginPage.maybeCloseWelcomePopup, runPrim, catchWarn, h1]
  | ok b =>
    cases b with
    | false => simp [LoginPage.maybeCloseWelcomePopup, runPrim, catchWarn, h1]
    | true =>
      cases h2 : env (s.step + 1) with
      | error e =>
        simp [LoginPage.maybeCloseWelcomePopup, runPrim, catchWarn, h1, h2, primU, andThen,
          Except.map, add_assoc]
      | ok b2 =>
        cases h3 : env (s.step + 2) with
        | error e =>
          simp [LoginPage.maybeCloseWelcomePopup, runPrim, catchWarn, h1, h2, h3, primU, andThen,
            Except.map, add_assoc]
        | ok b3 =>
          simp [LoginPage.maybeCloseWelcomePopup, runPrim, catchWarn, h1, h2, h3, primU, andThen,
            Except.map, add_assoc]

/-- Popup dismissal returns normally under every environment. -/
theorem maybeClose_fst (env : Env) (s : ExecState) :
    (LoginPage.maybeCloseWelcomePopup env s).1 = Except.ok () := by
  rw [maybeClose_eq]
  cases h1 : env s.step with
  | error e => rfl
  | ok b =>
    cases b with
    | false => rfl
    | true =>
      cases h2 : env (s.step + 1) with
      | error e => rfl
      | ok b2 => cases h3 : env (s.step + 2) <;> rfl

/-- Popup dismissal never touches the page object. -/
theorem maybeClose_pageObject (env : Env) (s : ExecState) :
    ((LoginPage.maybeCloseWelcomePopup env s).2).pageObject = s.pageObject := by
  rw [maybeClose_eq]
  cases h1 : env s.step with
  | error e => rfl
  | ok b =>
    cases b with
    | false => rfl
    | true =>
      cases h2 : env (s.step + 1) with
      | error e => rfl
      | ok b2 => cases h3 : env (s.step + 2) <;> rfl

/-- Popup dismissal in a throw-free environment: the branch is decided by
the visibility answer of the check. -/
theorem maybeClose_okEnv (vis : Nat → Bool) (s : ExecState) :
    LoginPage.maybeCloseWelcomePopup (okEnv vis) s =
      (Except.ok (),
       if vis s.step then
         bump (bump (bump s (Action.isVisible s.pageObject.startShoppingButton))
           (Action.click s.pageObject.startShoppingButton))
           (Action.expectHidden s.pageObject.startShoppingButton (some TIMEOUTS.MEDIUM))
       else bump s (Action.isVisible s.pageObject.startShoppingButton)) := by
  rw [maybeClose_eq]
  cases h : vis s.step <;> simp [okEnv, h]

/-- Throw-free straight-line blocks run all their primitives in order. -/
theorem runSeq_okEnv (vis : Nat → Bool) (acts : List Action) :
    ∀ s : ExecState, runSeq (okEnv vis) acts s =
      (Except.ok (), { s with step := s.step + acts.length, trace := s.trace ++ acts }) := by
  induction acts with
  | nil => intro s; simp [runSeq]
  | cons a rest ih =>
    intro s
    simp only [runSeq, primU, okEnv, andThen, Except.map, ih, bump]
    simp [List.append_assoc]
    omega

/-- A straight-line block preserves the page object under any environment. -/
theorem runSeq_pageObject (env : Env) (acts : List Action) :
    ∀ s : ExecState, ((runSeq env acts s).2).pageObject = s.pageObject := by
  induction acts with
  | nil => intro s; rfl
  | cons a rest ih =>
    intro s
    cases h : env s.step with
    | error e => simp [runSeq, primU, andThen, h, Except.map]
    | ok b => simpa [runSeq, primU, andThen, h, Except.map] using ih (bump s a)

/-- In an environment whose only throw is error `e` at position `k`, a
straight-line block either returns normally or propagates exactly `e`. -/
theorem runSeq_failAt (k : Nat) (e : String) (vis : Nat → Bool) (acts : List Action) :
    ∀ s : ExecState, (runSeq (failAt k e vis) acts s).1 = Except.ok () ∨
      (runSeq (failAt k e vis) acts s).1 = Except.error e := by
  induction acts with
  | nil => intro s; exact Or.inl rfl
  | cons a rest ih =>
    intro s
    by_cases h : s.step = k
    · right; simp [runSeq, primU, andThen, failAt, h, Except.map]
    · simpa [runSeq, primU, andThen, failAt, h, Except.map] using ih (bump s a)

/-- Sequencing preserves the page object when the continuation does. -/
theorem andThen_pageObject (r : MRes) (kf : ExecState → MRes)
    (hk : ∀ s : ExecState, ((kf s).2).pageObject = s.pageObject) :
    ((andThen r kf).2).pageObject = (r.2).pageObject := by
  obtain ⟨r1, s⟩ := r
  cases r1 with
  | ok u => simpa [andThen] using hk s
  | error e => rfl

/-- A full throw-free `login` run from a fresh state: normal return and the
exact primitive sequence, with the popup branch decided by the answer the
environment gives to the visibility check (primitive number 1). -/
theorem login_okEnv (email password : String) (vis : Nat → Bool) (page : Page) :
    LoginPage.login email password (okEnv vis) (initState page) =
      (Except.ok (),
       { pageObject := LoginPage.constructor page
         step := (loginExpectedTrace (LoginPage.constructor page) email password (vis 1)).length
         trace := loginExpectedTrace (LoginPage.constructor page) email password (vis 1)
         logs := [] }) := by
  cases h : vis 1 <;>
    simp [LoginPage.login, primU, okEnv, andThen, Except.map, maybeClose_okEnv, runSeq_okEnv,
      initState, loginExpectedTrace, h, List.append_assoc, bump]

/-- `login` preserves the page object under every environment. -/
theorem login_pageObject (email password : String) (env : Env) (s : ExecState) :
    ((LoginPage.login email password env s).2).pageObject = s.pageObject := by
  unfold LoginPage.login
  rw [andThen_pageObject]
  · rfl
  · intro s1
    rw [andThen_pageObject]
    · exact maybeClose_pageObject env s1
    · intro s2
      exact runSeq_pageObject env _ s2

/-- Complete propagation characterization for straight-line blocks: with the
only throw being `e` at position `k`, the block fails — and then with
exactly `e` — precisely when `k` is one of the positions the block
attempts. -/
theorem runSeq_failAt_iff (k : Nat) (e : String) (vis : Nat → Bool) (acts : List Action) :
    ∀ s : ExecState, ((runSeq (failAt k e vis) acts s).1 = Except.error e ↔
      (s.step ≤ k ∧ k < s.step + acts.length)) := by
  induction acts with
  | nil =>
    intro s
    simp only [runSeq, List.length_nil, Nat.add_zero]
    constructor
    · intro hE
      exact absurd hE (by simp)
    · intro hR
      exact absurd hR (by omega)
  | cons a rest ih =>
    intro s
    by_cases h : s.step = k
    · simp [runSeq, primU, andThen, failAt, h, Except.map, List.length_cons]
    · have hstep : failAt k e vis s.step = Except.ok (vis s.step) := by
        simp [failAt, h]
      simp only [runSeq, primU, andThen, hstep, Except.map]
      rw [ih (bump s a)]
      simp only [bump_step, List.length_cons]
      omega

/-- Full case analysis of `maybeCloseWelcomePopup` in an environment whose
only throw is `e` at position `k`: the operation always returns normally,
with the resulting state determined by whether `k` hits the check, the
click or the hidden-wait. -/
theorem maybeClose_failAt (k : Nat) (e : String) (vis : Nat → Bool) (s : ExecState) :
    LoginPage.maybeCloseWelcomePopup (failAt k e vis) s =
      (Except.ok (),
       if s.step = k then
         pushLog (bump s (Action.isVisible s.pageObject.startShoppingButton)) e
       else if vis s.step then
         (if s.step + 1 = k then
            pushLog (bump (bump s (Action.isVisible s.pageObject.startShoppingButton))
              (Action.click s.pageObject.startShoppingButton)) e
          else if s.step + 2 = k then
            pushLog (bump (bump (bump s (Action.isVisible s.pageObject.startShoppingButton))
              (Action.click s.pageObject.startShoppingButton))
              (Action.expectHidden s.pageObject.startShoppingButton (some TIMEOUTS.MEDIUM))) e
          else
            bump (bump (bump s (Action.isVisible s.pageObject.startShoppingButton))
              (Action.click s.pageObject.startShoppingButton))
              (Action.expectHidden s.pageObject.startShoppingButton (some TIMEOUTS.MEDIUM)))
       else bump s (Action.isVisible s.pageObject.startShoppingButton)) := by
  rw [maybeClose_eq]
  by_cases h1 : s.step = k
  · simp [failAt, h1]
  · cases hv : vis s.step with
    | false => simp [failAt, h1, hv]
    | true =>
      by_cases h2 : s.step + 1 = k
      · simp [failAt, h1, h2, hv]
      · by_cases h3 : s.step + 2 = k
        · simp [failAt, h1, h2, h3, hv]
        · simp [failAt, h1, h2, h3, hv]

/-- Complete propagation characterization of `login` from a fresh state in
an environment whose only throw is `e` at position `k`.  The primitives of
a run are numbered 0 (the navigation), 1 up to the popup length (the
dismissal internals: 1 check when the popup is absent, check/click/wait
when present), then the seven post-popup primitives.  `login` fails — and
then with exactly `e` — precisely when `k` is the navigation or one of the
seven post-popup primitives; a throw inside the dismissal attempt is
swallowed there. -/
theorem login_failAt_iff (email password : String) (k : Nat) (e : String) (vis : Nat → Bool)
    (page : Page) :
    ((LoginPage.login email password (failAt k e vis) (initState page)).1 = Except.error e ↔
      (k = 0 ∨ ((if vis 1 then 4 else 2) ≤ k ∧ k < (if vis 1 then 11 else 9)))) := by
  by_cases hk0 : k = 0
  · subst hk0
    simp [LoginPage.login, primU, andThen, Except.map, initState, failAt]
  · have hne0 : (0 : Nat) ≠ k := fun h => hk0 h.symm
    have h0 : failAt k e vis 0 = Except.ok (vis 0) := by simp [failAt, hne0]
    by_cases hk1 : k = 1
    · subst hk1
      simp [LoginPage.login, primU, andThen, Except.map, initState, h0, maybeClose_failAt,
        runSeq_failAt_iff]
      cases hv : vis 1 <;> simp [hv]
    · have hne1 : (1 : Nat) ≠ k := fun h => hk1 h.symm
      cases hv : vis 1 with
      | false =>
        simp [LoginPage.login, primU, andThen, Except.map, initState, h0, maybeClose_failAt,
          runSeq_failAt_iff, hne1, hv]
        omega
      | true =>
        by_cases hk2 : k = 2
        · have hne2 : (2 : Nat) = k := hk2.symm
          subst hne2
          simp [LoginPage.login, primU, andThen, Except.map, initState, h0, maybeClose_failAt,
            runSeq_failAt_iff, hne1, hv]
        · have hne2 : (2 : Nat) ≠ k := fun h => hk2 h.symm
          by_cases hk3 : k = 3
          · have hne3 : (3 : Nat) = k := hk3.symm
            subst hne3
            simp [LoginPage.login, primU, andThen, Except.map, initState, h0, maybeClose_failAt,
              runSeq_failAt_iff, hne1, hne2, hv]
          · have hne3 : (3 : Nat) ≠ k := fun h => hk3 h.symm
            simp [LoginPage.login, primU, andThen, Except.map, initState, h0, maybeClose_failAt,
              runSeq_failAt_iff, hne1, hne2, hne3, hv]
            omega

/-- When the only possible throw is `e`, one primitive either returns
normally or propagates exactly `e`. -/
theorem primU_fst_or (k : Nat) (e : String) (vis : Nat → Bool) (a : Action) (s : ExecState) :
    (primU (failAt k e vis) a s).1 = Except.ok () ∨
      (primU (failAt k e vis) a s).1 = Except.error e := by
  by_cases h : s.step = k <;> simp [primU, failAt, h, Except.map]

/-- Sequencing keeps results inside the normal-or-`e` set. -/
theorem andThen_fst_or (e : String) (r : MRes) (kf : ExecState → MRes)
    (h1 : r.1 = Except.ok () ∨ r.1 = Except.error e)
    (h2 : ∀ s : ExecState, (kf s).1 = Except.ok () ∨ (kf s).1 = Except.error e) :
    (andThen r kf).1 = Except.ok () ∨ (andThen r kf).1 = Except.error e := by
  obtain ⟨r1, s⟩ := r
  cases r1 with
  | ok u => exact h2 s
  | error e2 =>
    rcases h1 with h | h
    · exact absurd h (by simp)
    · right
      simpa [andThen] using h

/-- The throw-free `login` trace has no repeated primitive: every action is
attempted exactly once. -/
theorem loginExpectedTrace_nodup (email password : String) (page : Page) (b : Bool) :
    (loginExpectedTrace (LoginPage.constructor page) email password b).Nodup := by
  cases b <;> simp [loginExpectedTrace, LoginPage.constructor, ERROR_MESSAGES, TIMEOUTS]

/-- Every explicitly bounded wait in the `login` sequence uses the
configured MEDIUM duration. -/
theorem loginExpectedTrace_waits (email password : String) (page : Page) (b : Bool) :
    ((loginExpectedTrace (LoginPage.constructor page) email password b).all
      boundedWaitUsesConfig) = true := by
  cases b <;> simp [loginExpectedTrace, boundedWaitUsesConfig, LoginPage.constructor]

/-! ## Claims -/

/-- C2: for every email/password pair, a throw-free `login` run performs
exactly the sequence of `loginExpectedTrace`: navigation to "/login" with
`domcontentloaded`, the popup-dismissal attempt, bounded wait on the login
tab, its click, bounded wait on the email field, default wait on the
password field, the two fills with the supplied values, and the login-button
click — with nothing after the final click. -/
theorem login_performs_exact_sequence (email password : String) (vis : Nat → Bool) (page : Page) :
    LoginPage.login email password (okEnv vis) (initState page) =
      (Except.ok (),
       { pageObject := LoginPage.constructor page
         step := (loginExpectedTrace (LoginPage.constructor page) email password (vis 1)).length
         trace := loginExpectedTrace (LoginPage.constructor page) email password (vis 1)
         logs := [] }) :=
  login_okEnv email password vis page

/-- C3 (counterexample): the constructor does not bind seven locators — the
class has exactly six locator fields. -/
theorem constructor_seven_locators_false :
    ¬ ((LoginPage.locators (LoginPage.constructor { sessionId := 0 })).length = 7) := by
  decide

/-- C3 (amended): constructing a `LoginPage` binds the six named locators
(login tab, email field, password field, login button, error-message text,
"start shopping" popup-dismiss button) and stores the session handle; as a
pure total function it performs no primitive call and cannot fail. -/
theorem constructor_binds_six_locators (page : Page) :
    LoginPage.locators (LoginPage.constructor page) =
      [Locator.getByRole Role.tab { name := "Log in" },
       Locator.getByRole Role.textbox { name := "Email" },
       Locator.getByRole Role.textbox { name := "Password" },
       Locator.getByRole Role.button { name := "Log in" },
       Locator.getByText ERROR_MESSAGES.INVALID_LOGIN,
       Locator.getByRole Role.button { name := "Start Shopping", exact := true }] ∧
    (LoginPage.locators (LoginPage.constructor page)).length = 6 ∧
    (LoginPage.constructor page).page = page :=
  ⟨rfl, rfl, rfl⟩

/-- C5: in a throw-free run, if the dismiss control is visible at the check
the operation clicks it and then awaits (bounded by MEDIUM) that it becomes
hidden; if it is not visible the single performed primitive is the
visibility check itself, which is an immediate query, not a wait — no click
and no wait happen. -/
theorem maybeCloseWelcomePopup_conditional_click (vis : Nat → Bool) (s : ExecState) :
    LoginPage.maybeCloseWelcomePopup (okEnv vis) s =
      (Except.ok (),
       if vis s.step then
         bump (bump (bump s (Action.isVisible s.pageObject.startShoppingButton))
           (Action.click s.pageObject.startShoppingButton))
           (Action.expectHidden s.pageObject.startShoppingButton (some TIMEOUTS.MEDIUM))
       else bump s (Action.isVisible s.pageObject.startShoppingButton)) ∧
    isWaitAction (Action.isVisible s.pageObject.startShoppingButton) = false :=
  ⟨maybeClose_okEnv vis s, rfl⟩

/-- C6: `expectErrorVisible` performs exactly one bounded (MEDIUM) wait for
the error-message locator — which the constructor bound to the text of the
INVALID_LOGIN catalog entry — and it propagates an error if and only if the
environment makes that wait fail. -/
theorem expectErrorVisible_bounded_wait_invalid_login (env : Env) (s : ExecState) (page : Page) :
    LoginPage.expectErrorVisible env s =
      (Except.map (fun _ => ()) (env s.step),
       bump s (Action.expectVisible s.pageObject.errorMessage (some TIMEOUTS.MEDIUM))) ∧
    (LoginPage.constructor page).errorMessage = Locator.getByText ERROR_MESSAGES.INVALID_LOGIN ∧
    ∀ e : String, ((LoginPage.expectErrorVisible env s).1 = Except.error e ↔
      env s.step = Except.error e) := by
  refine ⟨rfl, rfl, ?_⟩
  intro e
  unfold LoginPage.expectErrorVisible primU
  cases h : env s.step <;> simp [Except.map]

/-- C7: `expectStillOnLoginPage` asserts, in order, that the login tab is
visible with a bounded (MEDIUM) wait and that the email field and the
password field are visible with the library default wait; it fails exactly
when one of the three checks fails, and then with the underlying error
unchanged: with the only throw being `e` at position `k`, the result is
`error e` precisely when `k` is one of the three attempted positions
(`s.step`, `s.step + 1`, `s.step + 2`), and a normal return otherwise. -/
theorem expectStillOnLoginPage_three_checks_in_order (vis : Nat → Bool) (k : Nat) (e : String)
    (s : ExecState) :
    LoginPage.expectStillOnLoginPage (okEnv vis) s =
      (Except.ok (),
       { s with
           step := s.step + 3
           trace := s.trace ++
             [Action.expectVisible s.pageObject.loginTab (some TIMEOUTS.MEDIUM),
              Action.expectVisible s.pageObject.emailInput none,
              Action.expectVisible s.pageObject.passwordInput none] }) ∧
    ((LoginPage.expectStillOnLoginPage (failAt k e vis) s).1 = Except.ok () ∨
      (LoginPage.expectStillOnLoginPage (failAt k e vis) s).1 = Except.error e) ∧
    (LoginPage.expectStillOnLoginPage (failAt s.step e vis) s).1 = Except.error e ∧
    ((LoginPage.expectStillOnLoginPage (failAt k e vis) s).1 = Except.error e ↔
      (s.step ≤ k ∧ k < s.step + 3)) := by
  refine ⟨?_, runSeq_failAt k e vis _ s, ?_, ?_⟩
  · simpa using runSeq_okEnv vis _ s
  · simp [LoginPage.expectStillOnLoginPage, runSeq, primU, andThen, failAt, Except.map]
  · have h := runSeq_failAt_iff k e vis
      [Action.expectVisible s.pageObject.loginTab (some TIMEOUTS.MEDIUM),
       Action.expectVisible s.pageObject.emailInput none,
       Action.expectVisible s.pageObject.passwordInput none] s
    simpa [LoginPage.expectStillOnLoginPage] using h

/-- C8: no operation modifies any field of the page object: under every
environment the page object after `goto`, `maybeCloseWelcomePopup`, `login`,
`expectErrorVisible` and `expectStillOnLoginPage` is the one from before the
call, so the session handle identity and all locator bindings are fixed. -/
theorem operations_preserve_pageObject (email password : String) (env : Env) (s : ExecState) :
    ((LoginPage.goto env s).2).pageObject = s.pageObject ∧
    ((LoginPage.maybeCloseWelcomePopup env s).2).pageObject = s.pageObject ∧
    ((LoginPage.login email password env s).2).pageObject = s.pageObject ∧
    ((LoginPage.expectErrorVisible env s).2).pageObject = s.pageObject ∧
    ((LoginPage.expectStillOnLoginPage env s).2).pageObject = s.pageObject ∧
    ((LoginPage.login email password env s).2).pageObject.page = s.pageObject.page := by
  refine ⟨rfl, maybeClose_pageObject env s, login_pageObject email password env s, rfl,
    runSeq_pageObject env _ s, ?_⟩
  rw [login_pageObject]

/-- C9: the standalone `goto` navigates with no explicit wait condition, so
the library default (the full load event) applies, while `login` issues its
own navigation with `domcontentloaded` — its trace starts with that action
and contains no other navigation; for a page whose resources finish loading
after `domcontentloaded`, the two navigations complete at different
instants. -/
theorem goto_and_login_navigation_differ (env : Env) (s : ExecState) (email password : String)
    (vis : Nat → Bool) (page : Page) (t : LoadTimeline) :
    LoginPage.goto env s =
      (Except.map (fun _ => ()) (env s.step), bump s (Action.goto "/login" none)) ∧
    (((LoginPage.login email password (okEnv vis) (initState page)).2).trace.head? =
      some (Action.goto "/login" (some WaitUntil.domcontentloaded))) ∧
    (((LoginPage.login email password (okEnv vis) (initState page)).2).trace.filter isGotoAction =
      [Action.goto "/login" (some WaitUntil.domcontentloaded)]) ∧
    effectiveWaitUntil none = WaitUntil.load ∧
    effectiveWaitUntil none ≠ effectiveWaitUntil (some WaitUntil.domcontentloaded) ∧
    (t.domcontentloadedAt < t.loadAt →
      navCompletionTime t (effectiveWaitUntil (some WaitUntil.domcontentloaded)) ≠
        navCompletionTime t (effectiveWaitUntil none)) := by
  refine ⟨rfl, ?_, ?_, rfl, by decide, ?_⟩
  · rw [login_okEnv]
    cases h : vis 1 <;> simp [loginExpectedTrace, h]
  · rw [login_okEnv]
    cases h : vis 1 <;> simp [loginExpectedTrace, h, isGotoAction]
  · intro h
    simp only [navCompletionTime, effectiveWaitUntil, defaultWaitUntil]
    omega

/-- C9 witness: on the timeline where `domcontentloaded` fires at instant 1
and `load` at instant 2, the two navigation conditions complete at
different instants. -/
theorem goto_and_login_navigation_differ_witness :
    (1 : Nat) < 2 ∧
    navCompletionTime { domcontentloadedAt := 1, loadAt := 2 }
        (effectiveWaitUntil (some WaitUntil.domcontentloaded)) ≠
      navCompletionTime { domcontentloadedAt := 1, loadAt := 2 } (effectiveWaitUntil none) :=
  ⟨by decide,
   (goto_and_login_navigation_differ (okEnv fun _ => true) (initState { sessionId := 0 }) "a" "b"
      (fun _ => true) { sessionId := 0 } { domcontentloadedAt := 1, loadAt := 2 }).2.2.2.2.2
     (by decide)⟩

/-- C10: the popup-dismiss locator is the only one built with exact
accessible-name matching; a button whose accessible name merely contains
"Start Shopping" is not matched by it (though it would be by a non-exact
locator), so in a DOM holding only such a button the dismissal operation
performs just the visibility check and no click. -/
theorem startShoppingButton_only_exact_locator (page : Page) :
    ((LoginPage.constructor page).startShoppingButton =
      Locator.getByRole Role.button { name := "Start Shopping", exact := true }) ∧
    locatorIsExact (LoginPage.constructor page).startShoppingButton = true ∧
    locatorIsExact (LoginPage.constructor page).loginTab = false ∧
    locatorIsExact (LoginPage.constructor page).emailInput = false ∧
    locatorIsExact (LoginPage.constructor page).passwordInput = false ∧
    locatorIsExact (LoginPage.constructor page).loginButton = false ∧
    locatorIsExact (LoginPage.constructor page).errorMessage = false ∧
    nameMatches { name := "Start Shopping", exact := true } "Start Shopping Now" = false ∧
    nameMatches { name := "Start Shopping" } "Start Shopping Now" = true ∧
    visibleInDom domWithContainingName
      (Locator.getByRole Role.button { name := "Start Shopping", exact := true }) = false ∧
    visibleInDom domWithContainingName
      (Locator.getByRole Role.button { name := "Start Shopping" }) = true ∧
    (((LoginPage.maybeCloseWelcomePopup
        (okEnv fun _ => visibleInDom domWithContainingName
          (Locator.getByRole Role.button { name := "Start Shopping", exact := true }))
        (initState page)).2).trace =
      [Action.isVisible (LoginPage.constructor page).startShoppingButton]) := by
  have hv : visibleInDom domWithContainingName
      (Locator.getByRole Role.button { name := "Start Shopping", exact := true }) = false := by
    decide
  refine ⟨rfl, rfl, rfl, rfl, rfl, rfl, rfl, by decide, by decide, hv, by decide, ?_⟩
  rw [maybeClose_okEnv]
  simp [initState, hv]

/-- C4: every operation except popup dismissal propagates an injected
failure unchanged, at every failing position: in an environment whose only
throw is `e` at position `k`, each of `goto`, `login`, `expectErrorVisible`
and `expectStillOnLoginPage` either returns normally or fails with exactly
`e`, and the result is `error e` precisely when `k` is a position the
operation itself attempts — for `goto` and `expectErrorVisible` their single
primitive, for `expectStillOnLoginPage` any of its three checks, and for a
fresh `login` run the navigation (position 0) or any of the seven
post-popup primitives (positions popup-length + 1 up to popup-length + 7,
the popup length being 3 when the check answers visible and 1 otherwise);
only throws inside the popup-dismissal attempt are swallowed, as C1
requires.  There are no retries — the throw-free `login` trace attempts
every primitive exactly once, every explicitly bounded wait carrying the
configured MEDIUM timeout. -/
theorem operations_propagate_failures_no_retry (k : Nat) (e : String) (vis : Nat → Bool)
    (email password : String) (page : Page) (s : ExecState) :
    ((LoginPage.goto (failAt k e vis) s).1 = Except.ok () ∨
      (LoginPage.goto (failAt k e vis) s).1 = Except.error e) ∧
    ((LoginPage.login email password (failAt k e vis) s).1 = Except.ok () ∨
      (LoginPage.login email password (failAt k e vis) s).1 = Except.error e) ∧
    ((LoginPage.expectErrorVisible (failAt k e vis) s).1 = Except.ok () ∨
      (LoginPage.expectErrorVisible (failAt k e vis) s).1 = Except.error e) ∧
    ((LoginPage.expectStillOnLoginPage (failAt k e vis) s).1 = Except.ok () ∨
      (LoginPage.expectStillOnLoginPage (failAt k e vis) s).1 = Except.error e) ∧
    (LoginPage.goto (failAt s.step e vis) s).1 = Except.error e ∧
    (LoginPage.login email password (failAt s.step e vis) s).1 = Except.error e ∧
    (LoginPage.expectErrorVisible (failAt s.step e vis) s).1 = Except.error e ∧
    (LoginPage.expectStillOnLoginPage (failAt s.step e vis) s).1 = Except.error e ∧
    ((LoginPage.goto (failAt k e vis) s).1 = Except.error e ↔ s.step = k) ∧
    ((LoginPage.expectErrorVisible (failAt k e vis) s).1 = Except.error e ↔ s.step = k) ∧
    ((LoginPage.expectStillOnLoginPage (failAt k e vis) s).1 = Except.error e ↔
      (s.step ≤ k ∧ k < s.step + 3)) ∧
    ((LoginPage.login email password (failAt k e vis) (initState page)).1 = Except.error e ↔
      (k = 0 ∨ ((if vis 1 then 4 else 2) ≤ k ∧ k < (if vis 1 then 11 else 9)))) ∧
    ((LoginPage.login email password (okEnv vis) (initState page)).2).trace.Nodup ∧
    (((LoginPage.login email password (okEnv vis) (initState page)).2).trace.all
      boundedWaitUsesConfig) = true := by
  refine ⟨primU_fst_or k e vis _ s, ?_, primU_fst_or k e vis _ s,
    runSeq_failAt k e vis _ s, ?_, ?_, ?_, ?_, ?_, ?_, ?_,
    login_failAt_iff email password k e vis page, ?_, ?_⟩
  · apply andThen_fst_or e
    · exact primU_fst_or k e vis _ s
    · intro s1
      apply andThen_fst_or e
      · exact Or.inl (maybeClose_fst _ s1)
      · intro s2
        exact runSeq_failAt k e vis _ s2
  · simp [LoginPage.goto, primU, failAt, Except.map]
  · simp [LoginPage.login, primU, andThen, failAt, Except.map]
  · simp [LoginPage.expectErrorVisible, primU, failAt, Except.map]
  · simp [LoginPage.expectStillOnLoginPage, runSeq, primU, andThen, failAt, Except.map]
  · by_cases h : s.step = k <;> simp [LoginPage.goto, primU, failAt, h, Except.map]
  · by_cases h : s.step = k <;> simp [LoginPage.expectErrorVisible, primU, failAt, h, Except.map]
  · have h := runSeq_failAt_iff k e vis
      [Action.expectVisible s.pageObject.loginTab (some TIMEOUTS.MEDIUM),
       Action.expectVisible s.pageObject.emailInput none,
       Action.expectVisible s.pageObject.passwordInput none] s
    simpa [LoginPage.expectStillOnLoginPage] using h
  · rw [login_okEnv]
    exact loginExpectedTrace_nodup email password page (vis 1)
  · rw [login_okEnv]
    exact loginExpectedTrace_waits email password page (vis 1)

end ELeadLogin
